import Mathlib

/-!
Verification of the GTP 7-series transceiver wrapper (gtp_7series.py):
the PLL configuration solver `GTPQuadPLL.compute_config` and the
combinational wiring of the `GTP` module (clock aligner, initializers,
PLL reset, the line-rate assertion and the RXCDR configuration lookup).

Frequencies and rates are modelled as exact rationals.  The Python source
computes them with IEEE doubles, but every quantity the solver manipulates
(products of the reference clock with integers up to 25, divided by 1 or 2
and by powers of two) stays exact in double precision whenever the inputs
are, so the rational model is faithful on the whole input range of
interest.
-/

namespace GTP7

/-- Configuration dictionary returned by `GTPQuadPLL.compute_config`:
the keys n1, n2, m, d, vco_freq, clkin, linerate of the Python dict
(gtp_7series.py, lines 60-63). -/
structure LinkConfig where
  n1 : ℕ
  n2 : ℕ
  m : ℕ
  d : ℕ
  vco_freq : ℚ
  clkin : ℚ
  linerate : ℚ
deriving DecidableEq, Repr

/-- Data interpolated into the `ValueError` message raised by
`compute_config` when no configuration is found (gtp_7series.py,
lines 64-65): the requested reference clock frequency and line rate. -/
structure ConfigError where
  refclk_freq : ℚ
  linerate : ℚ
deriving DecidableEq, Repr

/-- The loop nest of `GTPQuadPLL.compute_config` (gtp_7series.py, lines
52-63): n1 over (4, 5), n2 over (1, 2, 3, 4, 5), m over (1, 2), computing
vco_freq = refclk_freq*(n1*n2)/m, skipping the (n1, n2, m) triple unless
1.6e9 <= vco_freq <= 3.3e9, then d over (1, 2, 4, 8), returning the first
tuple whose derived line rate vco_freq*2/d equals the requested linerate.
`none` models falling through every loop without hitting the `return`. -/
def pll_search (refclk_freq linerate : ℚ) : Option LinkConfig :=
  ([4, 5] : List ℕ).findSome? (fun n1 =>
    ([1, 2, 3, 4, 5] : List ℕ).findSome? (fun n2 =>
      ([1, 2] : List ℕ).findSome? (fun m =>
        let vco_freq : ℚ := refclk_freq * (n1 * n2 : ℕ) / (m : ℕ)
        if 1.6e9 ≤ vco_freq ∧ vco_freq ≤ 3.3e9 then
          ([1, 2, 4, 8] : List ℕ).findSome? (fun d =>
            let current_linerate : ℚ := vco_freq * 2 / (d : ℕ)
            if current_linerate = linerate then
              some { n1 := n1, n2 := n2, m := m, d := d,
                     vco_freq := vco_freq, clkin := refclk_freq,
                     linerate := linerate }
            else none)
        else none)))

/-- `GTPQuadPLL.compute_config` (gtp_7series.py, lines 50-65): run the
loop nest; if it returns a dict, hand it back, otherwise raise ValueError
(modelled as `Except.error`) carrying the requested inputs. -/
def compute_config (refclk_freq linerate : ℚ) : Except ConfigError LinkConfig :=
  match pll_search refclk_freq linerate with
  | some cfg => Except.ok cfg
  | none => Except.error { refclk_freq := refclk_freq, linerate := linerate }

/-- The VCO frequency `refclk_freq*(n1*n2)/m` computed at line 55 of
gtp_7series.py, as a function of the divider tuple (n1, n2, m, d). -/
def vco_of (r : ℚ) (t : ℕ × ℕ × ℕ × ℕ) : ℚ :=
  r * (t.1 * t.2.1 : ℕ) / (t.2.2.1 : ℕ)

/-- A divider tuple (n1, n2, m, d) is accepted by the solver iff its VCO
frequency lies in the [1.6e9, 3.3e9] band (line 56) and the derived line
rate vco*2/d equals the requested line rate exactly (lines 58-59). -/
def tuple_ok (r l : ℚ) (t : ℕ × ℕ × ℕ × ℕ) : Bool :=
  decide ((1.6e9 ≤ vco_of r t ∧ vco_of r t ≤ 3.3e9) ∧
    vco_of r t * 2 / (t.2.2.2 : ℕ) = l)

/-- The configuration dict built at lines 60-63 of gtp_7series.py for a
given divider tuple. -/
def mk_config (r l : ℚ) (t : ℕ × ℕ × ℕ × ℕ) : LinkConfig :=
  { n1 := t.1, n2 := t.2.1, m := t.2.2.1, d := t.2.2.2,
    vco_freq := vco_of r t, clkin := r, linerate := l }

/-- The search space of the solver in its exact enumeration order:
n1 ascending over (4, 5), then n2 ascending over (1..5), then m ascending
over (1, 2), then d ascending over (1, 2, 4, 8). -/
def pll_tuples : List (ℕ × ℕ × ℕ × ℕ) :=
  ([4, 5] : List ℕ).flatMap (fun n1 =>
    ([1, 2, 3, 4, 5] : List ℕ).flatMap (fun n2 =>
      ([1, 2] : List ℕ).flatMap (fun m =>
        ([1, 2, 4, 8] : List ℕ).map (fun d => (n1, n2, m, d)))))

/-- The configuration the solver actually returns at refclk 125 MHz,
linerate 2.5 Gbps. -/
def cfg_125M_2p5G : LinkConfig :=
  { n1 := 4, n2 := 5, m := 1, d := 2,
    vco_freq := 2.5e9, clkin := 125e6, linerate := 2.5e9 }

/-- The configuration the solver actually returns at refclk 125 MHz,
linerate 1 Gbps. -/
def cfg_125M_1G : LinkConfig :=
  { n1 := 4, n2 := 4, m := 1, d := 4,
    vco_freq := 2e9, clkin := 125e6, linerate := 1e9 }

/-- Signal levels read by the combinational statements of `GTP.__init__`:
the PLL lock output, the TX initializer's pllreset output, the RX
initializer's done output, the clock aligner's restart and ready outputs,
and the 20-bit received word rx.rxdata. -/
structure GTPSignals where
  qpll_lock : Bool
  tx_init_pllreset : Bool
  rx_init_done : Bool
  aligner_restart : Bool
  aligner_ready : Bool
  rx_rxdata : ℕ
deriving DecidableEq, Repr

/-- Signal levels driven by the combinational statements of
`GTP.__init__`: the plllock inputs of the two initializers, the PLL reset
input, the RX initializer's restart input, the aligner's rxdata input and
the module's rx_ready output. -/
structure GTPComb where
  tx_init_plllock : Bool
  rx_init_plllock : Bool
  qpll_reset : Bool
  rx_init_restart : Bool
  aligner_rxdata : ℕ
  rx_ready : Bool
deriving DecidableEq, Repr

/-- The combinational wiring of `GTP.__init__` (gtp_7series.py, lines
167-171 and 353-362): tx_init.plllock and rx_init.plllock are driven by
qpll.lock, qpll.reset by tx_init.pllreset; with the clock aligner enabled,
aligner.rxdata is driven by rx.rxdata, rx_init.restart by aligner.restart
and rx_ready by aligner.ready; with it disabled, rx_ready is driven by
rx_init.done, and the undriven rx_init.restart and (nonexistent) aligner
inputs read as Migen's default level 0. -/
def gtp_comb (clock_aligner : Bool) (s : GTPSignals) : GTPComb :=
  { tx_init_plllock := s.qpll_lock
    rx_init_plllock := s.qpll_lock
    qpll_reset := s.tx_init_pllreset
    rx_init_restart := if clock_aligner then s.aligner_restart else false
    aligner_rxdata := if clock_aligner then s.rx_rxdata else 0
    rx_ready := if clock_aligner then s.aligner_ready else s.rx_init_done }

/-- A `BruteforceClockAligner` submodule is instantiated by
`GTP.__init__` exactly when the clock_aligner argument is true
(gtp_7series.py, lines 353-355). -/
def gtp_aligner_present (clock_aligner : Bool) : Bool :=
  clock_aligner

/-- The rxcdr_cfgs dictionary of `GTP.__init__` (gtp_7series.py, lines
180-185), keyed by the output divider d; `none` models a KeyError. -/
def rxcdr_cfgs (d : ℕ) : Option ℕ :=
  if d = 1 then some 0x0000107FE406001041010
  else if d = 2 then some 0x0000107FE206001041010
  else if d = 4 then some 0x0000107FE106001041010
  else if d = 8 then some 0x0000107FE086001041010
  else none

/-- Construction-time behaviour of `GTP.__init__` with respect to its
qpll configuration: the assertion `qpll.config["linerate"] < 6.6e9` at
line 173 must pass, then the RXCDR configuration is looked up as
`rxcdr_cfgs[qpll.config["d"]]` at line 311 while instantiating the
GTPE2_CHANNEL; on success the module's aligner flag and combinational
wiring result.  `none` models AssertionError or KeyError. -/
def gtp_construct (qpll_config : LinkConfig) (clock_aligner : Bool) :
    Option (ℕ × Bool × (GTPSignals → GTPComb)) :=
  if qpll_config.linerate < 6.6e9 then
    match rxcdr_cfgs qpll_config.d with
    | some rxcdr_cfg => some (rxcdr_cfg, gtp_aligner_present clock_aligner,
        gtp_comb clock_aligner)
    | none => none
  else none

/-- A signal state used as a concrete witness input. -/
def sig_a : GTPSignals :=
  { qpll_lock := true, tx_init_pllreset := false, rx_init_done := true,
    aligner_restart := true, aligner_ready := false, rx_rxdata := 5 }

/-- A second witness signal state, agreeing with `sig_a` only on
rx_init_done. -/
def sig_b : GTPSignals :=
  { qpll_lock := false, tx_init_pllreset := true, rx_init_done := true,
    aligner_restart := false, aligner_ready := true, rx_rxdata := 7 }

/-- A configuration whose linerate sits exactly at the 6.6e9 bound. -/
def cfg_too_fast : LinkConfig :=
  { n1 := 4, n2 := 5, m := 1, d := 1,
    vco_freq := 3.3e9, clkin := 165e6, linerate := 6.6e9 }

/-- The enumeration order made explicit: `pll_tuples` is exactly this
lexicographically ascending list of 80 divider tuples. -/
theorem pll_tuples_explicit : pll_tuples =
    [(4, 1, 1, 1), (4, 1, 1, 2), (4, 1, 1, 4), (4, 1, 1, 8), (4, 1, 2, 1),
     (4, 1, 2, 2), (4, 1, 2, 4), (4, 1, 2, 8), (4, 2, 1, 1), (4, 2, 1, 2),
     (4, 2, 1, 4), (4, 2, 1, 8), (4, 2, 2, 1), (4, 2, 2, 2), (4, 2, 2, 4),
     (4, 2, 2, 8), (4, 3, 1, 1), (4, 3, 1, 2), (4, 3, 1, 4), (4, 3, 1, 8),
     (4, 3, 2, 1), (4, 3, 2, 2), (4, 3, 2, 4), (4, 3, 2, 8), (4, 4, 1, 1),
     (4, 4, 1, 2), (4, 4, 1, 4), (4, 4, 1, 8), (4, 4, 2, 1), (4, 4, 2, 2),
     (4, 4, 2, 4), (4, 4, 2, 8), (4, 5, 1, 1), (4, 5, 1, 2), (4, 5, 1, 4),
     (4, 5, 1, 8), (4, 5, 2, 1), (4, 5, 2, 2), (4, 5, 2, 4), (4, 5, 2, 8),
     (5, 1, 1, 1), (5, 1, 1, 2), (5, 1, 1, 4), (5, 1, 1, 8), (5, 1, 2, 1),
     (5, 1, 2, 2), (5, 1, 2, 4), (5, 1, 2, 8), (5, 2, 1, 1), (5, 2, 1, 2),
     (5, 2, 1, 4), (5, 2, 1, 8), (5, 2, 2, 1), (5, 2, 2, 2), (5, 2, 2, 4),
     (5, 2, 2, 8), (5, 3, 1, 1), (5, 3, 1, 2), (5, 3, 1, 4), (5, 3, 1, 8),
     (5, 3, 2, 1), (5, 3, 2, 2), (5, 3, 2, 4), (5, 3, 2, 8), (5, 4, 1, 1),
     (5, 4, 1, 2), (5, 4, 1, 4), (5, 4, 1, 8), (5, 4, 2, 1), (5, 4, 2, 2),
     (5, 4, 2, 4), (5, 4, 2, 8), (5, 5, 1, 1), (5, 5, 1, 2), (5, 5, 1, 4),
     (5, 5, 1, 8), (5, 5, 2, 1), (5, 5, 2, 2), (5, 5, 2, 4), (5, 5, 2, 8)] := by
  decide

/-- Every tuple of the search space has n1 in {4, 5}, n2 in {1..5},
m in {1, 2} and d in {1, 2, 4, 8}. -/
theorem pll_tuples_components : ∀ t ∈ pll_tuples,
    (t.1 = 4 ∨ t.1 = 5) ∧
    (t.2.1 = 1 ∨ t.2.1 = 2 ∨ t.2.1 = 3 ∨ t.2.1 = 4 ∨ t.2.1 = 5) ∧
    (t.2.2.1 = 1 ∨ t.2.2.1 = 2) ∧
    (t.2.2.2 = 1 ∨ t.2.2.2 = 2 ∨ t.2.2.2 = 4 ∨ t.2.2.2 = 8) := by
  decide

theorem findSome?_const_none {α β : Type _} (l : List α) :
    (l.findSome? fun _ => (none : Option β)) = none := by
  induction l with
  | nil => rfl
  | cons a l ih => rw [List.findSome?_cons]; exact ih

theorem findSome?_congr {α β : Type _} {f g : α → Option β} :
    ∀ l : List α, (∀ a ∈ l, f a = g a) → l.findSome? f = l.findSome? g
  | [], _ => rfl
  | a :: l, h => by
    rw [List.findSome?_cons, List.findSome?_cons,
      h a (List.mem_cons_self a l),
      findSome?_congr l (fun x hx => h x (List.mem_cons_of_mem _ hx))]

theorem if_findSome? {α β : Type _} (c : Prop) [Decidable c] (l : List α)
    (f : α → Option β) :
    (if c then l.findSome? f else none) =
      l.findSome? fun a => if c then f a else none := by
  by_cases h : c
  · simp only [if_pos h]
  · simp only [if_neg h]
    exact (findSome?_const_none l).symm

theorem findSome?_flatMap {α β γ : Type _} (l : List α) (g : α → List β)
    (f : β → Option γ) :
    (l.flatMap g).findSome? f = l.findSome? fun a => (g a).findSome? f := by
  induction l with
  | nil => rfl
  | cons a l ih =>
    rw [List.flatMap_cons, List.findSome?_append, ih, List.findSome?_cons]
    cases (g a).findSome? f <;> rfl

theorem findSome?_guard {α β : Type _} (p : α → Bool) (f : α → β) :
    ∀ l : List α,
      (l.findSome? fun a => if p a then some (f a) else none) =
        (l.find? p).map f
  | [] => rfl
  | a :: l => by
    rw [List.findSome?_cons]
    cases h : p a
    · rw [List.find?_cons_of_neg _ (by simp [h]), ← findSome?_guard p f l]
      simp [h]
    · rw [List.find?_cons_of_pos _ h]
      simp [h]

/-- The loop nest of `compute_config` is the first-match search over
`pll_tuples` in its enumeration order: it returns the configuration built
from the first tuple accepted by `tuple_ok`, and `none` when no tuple is
accepted.  The VCO band test at line 56 of gtp_7series.py does not depend
on d, which is why hoisting it into the per-tuple predicate is sound. -/
theorem pll_search_eq_find (r l : ℚ) :
    pll_search r l = (pll_tuples.find? (tuple_ok r l)).map (mk_config r l) := by
  rw [← findSome?_guard (tuple_ok r l) (mk_config r l) pll_tuples]
  unfold pll_search pll_tuples
  rw [findSome?_flatMap]
  apply findSome?_congr
  intro n1 _
  rw [findSome?_flatMap]
  apply findSome?_congr
  intro n2 _
  rw [findSome?_flatMap]
  apply findSome?_congr
  intro m _
  rw [List.findSome?_map]
  dsimp only
  rw [if_findSome?]
  apply findSome?_congr
  intro d _
  dsimp only [Function.comp]
  by_cases hband : (1.6e9 : ℚ) ≤ r * ((n1 * n2 : ℕ) : ℚ) / ((m : ℕ) : ℚ) ∧
      r * ((n1 * n2 : ℕ) : ℚ) / ((m : ℕ) : ℚ) ≤ 3.3e9
  · by_cases hmatch :
        r * ((n1 * n2 : ℕ) : ℚ) / ((m : ℕ) : ℚ) * 2 / ((d : ℕ) : ℚ) = l
    · have hok : tuple_ok r l (n1, n2, m, d) = true := by
        simp only [tuple_ok, vco_of, decide_eq_true_eq]
        exact ⟨hband, hmatch⟩
      rw [if_pos hband, if_pos hmatch]
      simp only [hok, if_true]
      rfl
    · have hok : tuple_ok r l (n1, n2, m, d) = false := by
        simp only [tuple_ok, vco_of, decide_eq_false_iff_not]
        exact fun hc => hmatch hc.2
      rw [if_pos hband, if_neg hmatch]
      simp [hok]
  · have hok : tuple_ok r l (n1, n2, m, d) = false := by
      simp only [tuple_ok, vco_of, decide_eq_false_iff_not]
      exact fun hc => hband hc.1
    rw [if_neg hband]
    simp [hok]

/-- Concrete run of the loop nest at refclk 125 MHz, linerate 2.5 Gbps:
the first accepted tuple is n1=4, n2=5, m=1, d=2 (vco 2.5 GHz). -/
theorem pll_search_125M_2p5G : pll_search 125e6 2.5e9 =
    some cfg_125M_2p5G := by
  simp only [pll_search, cfg_125M_2p5G, List.findSome?]
  norm_num

/-- Concrete run of the loop nest at refclk 125 MHz, linerate 1 Gbps:
the first accepted tuple is n1=4, n2=4, m=1, d=4 (vco 2 GHz). -/
theorem pll_search_125M_1G : pll_search 125e6 1e9 =
    some cfg_125M_1G := by
  simp only [pll_search, cfg_125M_1G, List.findSome?]
  norm_num

/-- `compute_config` at refclk 125 MHz, linerate 2.5 Gbps returns the
configuration n1=4, n2=5, m=1, d=2 with vco 2.5 GHz. -/
theorem compute_config_125M_2p5G : compute_config 125e6 2.5e9 =
    Except.ok cfg_125M_2p5G := by
  unfold compute_config
  rw [pll_search_125M_2p5G]

/-- `compute_config` at refclk 125 MHz, linerate 1 Gbps returns the
configuration n1=4, n2=4, m=1, d=4 with vco 2 GHz. -/
theorem compute_config_125M_1G : compute_config 125e6 1e9 =
    Except.ok cfg_125M_1G := by
  unfold compute_config
  rw [pll_search_125M_1G]

/-- `compute_config` returns a configuration exactly when the first-match
search over the enumeration succeeds, and the returned configuration is
built from the found tuple. -/
theorem compute_config_ok_iff (r l : ℚ) (cfg : LinkConfig) :
    compute_config r l = Except.ok cfg ↔
      ∃ t, pll_tuples.find? (tuple_ok r l) = some t ∧ cfg = mk_config r l t := by
  unfold compute_config
  rw [pll_search_eq_find]
  cases hf : pll_tuples.find? (tuple_ok r l) with
  | none => simp
  | some t => simp [eq_comm]

/-- The first-match search at refclk 125 MHz, linerate 2.5 Gbps finds the
tuple (4, 5, 1, 2). -/
theorem find_125M_2p5G :
    pll_tuples.find? (tuple_ok 125e6 2.5e9) = some (4, 5, 1, 2) := by
  have h := pll_search_eq_find 125e6 2.5e9
  rw [pll_search_125M_2p5G] at h
  cases hf : pll_tuples.find? (tuple_ok 125e6 2.5e9) with
  | none => rw [hf] at h; exact absurd h (by simp)
  | some t =>
    rw [hf] at h
    obtain ⟨a, b, c, d⟩ := t
    simp only [Option.map_some', Option.some.injEq] at h
    have h1 := congrArg LinkConfig.n1 h
    have h2 := congrArg LinkConfig.n2 h
    have h3 := congrArg LinkConfig.m h
    have h4 := congrArg LinkConfig.d h
    simp only [cfg_125M_2p5G, mk_config] at h1 h2 h3 h4
    subst h1 h2 h3 h4
    rfl

/-- C1: whenever `compute_config` returns a configuration, that
configuration satisfies both invariants exactly — its vco_freq equals
clkin*n1*n2/m and lies in [1.6e9, 3.3e9], its derived line rate
vco_freq*2/d equals the requested linerate exactly, its dividers come
from the documented sets n1 in {4,5}, n2 in {1..5}, m in {1,2},
d in {1,2,4,8}, and its clkin and linerate fields equal the inputs. -/
theorem C1_solver_invariants (r l : ℚ) (cfg : LinkConfig)
    (h : compute_config r l = Except.ok cfg) :
    cfg.vco_freq = r * ((cfg.n1 * cfg.n2 : ℕ) : ℚ) / ((cfg.m : ℕ) : ℚ) ∧
    1.6e9 ≤ cfg.vco_freq ∧ cfg.vco_freq ≤ 3.3e9 ∧
    cfg.vco_freq * 2 / ((cfg.d : ℕ) : ℚ) = l ∧
    (cfg.n1 = 4 ∨ cfg.n1 = 5) ∧
    (cfg.n2 = 1 ∨ cfg.n2 = 2 ∨ cfg.n2 = 3 ∨ cfg.n2 = 4 ∨ cfg.n2 = 5) ∧
    (cfg.m = 1 ∨ cfg.m = 2) ∧
    (cfg.d = 1 ∨ cfg.d = 2 ∨ cfg.d = 4 ∨ cfg.d = 8) ∧
    cfg.clkin = r ∧ cfg.linerate = l := by
  obtain ⟨t, hf, hcfg⟩ := (compute_config_ok_iff r l cfg).1 h
  subst hcfg
  have hok := List.find?_some hf
  have hcomp := pll_tuples_components t (List.mem_of_find?_eq_some hf)
  simp only [tuple_ok, decide_eq_true_eq] at hok
  exact ⟨rfl, hok.1.1, hok.1.2, hok.2, hcomp.1, hcomp.2.1, hcomp.2.2.1,
    hcomp.2.2.2, rfl, rfl⟩

/-- Witness for C1 at refclk 125 MHz, linerate 2.5 Gbps. -/
theorem C1_solver_invariants_witness :
    compute_config 125e6 2.5e9 = Except.ok cfg_125M_2p5G ∧
    (cfg_125M_2p5G.vco_freq =
        125e6 * ((cfg_125M_2p5G.n1 * cfg_125M_2p5G.n2 : ℕ) : ℚ) /
          ((cfg_125M_2p5G.m : ℕ) : ℚ) ∧
      1.6e9 ≤ cfg_125M_2p5G.vco_freq ∧ cfg_125M_2p5G.vco_freq ≤ 3.3e9 ∧
      cfg_125M_2p5G.vco_freq * 2 / ((cfg_125M_2p5G.d : ℕ) : ℚ) = 2.5e9 ∧
      (cfg_125M_2p5G.n1 = 4 ∨ cfg_125M_2p5G.n1 = 5) ∧
      (cfg_125M_2p5G.n2 = 1 ∨ cfg_125M_2p5G.n2 = 2 ∨ cfg_125M_2p5G.n2 = 3 ∨
        cfg_125M_2p5G.n2 = 4 ∨ cfg_125M_2p5G.n2 = 5) ∧
      (cfg_125M_2p5G.m = 1 ∨ cfg_125M_2p5G.m = 2) ∧
      (cfg_125M_2p5G.d = 1 ∨ cfg_125M_2p5G.d = 2 ∨ cfg_125M_2p5G.d = 4 ∨
        cfg_125M_2p5G.d = 8) ∧
      cfg_125M_2p5G.clkin = 125e6 ∧ cfg_125M_2p5G.linerate = 2.5e9) :=
  ⟨compute_config_125M_2p5G,
    C1_solver_invariants 125e6 2.5e9 cfg_125M_2p5G compute_config_125M_2p5G⟩

/-- C2 counterexample: at refclk 125 MHz, linerate 2.5 Gbps the solver
does not return n1=5, n2=4, m=1, d=4 — the configuration it returns has
n1=4 (namely n1=4, n2=5, m=1, d=2). -/
theorem C2_counterexample :
    ¬ ∃ cfg, compute_config 125e6 2.5e9 = Except.ok cfg ∧
      cfg.n1 = 5 ∧ cfg.n2 = 4 ∧ cfg.m = 1 ∧ cfg.d = 4 := by
  rintro ⟨cfg, hcfg, h5, -, -, -⟩
  rw [compute_config_125M_2p5G] at hcfg
  injection hcfg with hcfg
  subst hcfg
  exact absurd h5 (by simp [cfg_125M_2p5G])

/-- C2 (amended): at refclk 125 MHz, linerate 2.5 Gbps the solver returns
n1=4, n2=5, m=1, d=2 with vco_freq = 2.5e9. -/
theorem C2_amended_config :
    compute_config 125e6 2.5e9 = Except.ok cfg_125M_2p5G ∧
    cfg_125M_2p5G.n1 = 4 ∧ cfg_125M_2p5G.n2 = 5 ∧ cfg_125M_2p5G.m = 1 ∧
    cfg_125M_2p5G.d = 2 ∧ cfg_125M_2p5G.vco_freq = 2.5e9 :=
  ⟨compute_config_125M_2p5G, rfl, rfl, rfl, rfl, rfl⟩

/-- C3 counterexample: at refclk 125 MHz, linerate 1 Gbps the solver does
not fail — it returns a configuration. -/
theorem C3_counterexample :
    ¬ ∃ e, compute_config 125e6 1e9 = Except.error e := by
  rintro ⟨e, he⟩
  rw [compute_config_125M_1G] at he
  exact Except.noConfusion he

/-- C3 (amended): at refclk 125 MHz, linerate 1 Gbps the tuple n1=4,
n2=4, m=1, d=4 does satisfy both constraints (vco 2e9 is in band and
2e9*2/4 = 1e9 exactly), and the solver returns it. -/
theorem C3_amended_config :
    compute_config 125e6 1e9 = Except.ok cfg_125M_1G ∧
    tuple_ok 125e6 1e9 (4, 4, 1, 4) = true := by
  refine ⟨compute_config_125M_1G, ?_⟩
  simp only [tuple_ok, vco_of, decide_eq_true_eq]
  norm_num

/-- C4: when the first-match search over the fixed enumeration order
(n1 ascending, then n2, then m, then d ascending — `pll_tuples`) finds a
satisfying tuple, `compute_config` returns exactly that first tuple's
configuration. -/
theorem C4_first_match_wins (r l : ℚ) (t : ℕ × ℕ × ℕ × ℕ)
    (h : pll_tuples.find? (tuple_ok r l) = some t) :
    compute_config r l = Except.ok (mk_config r l t) := by
  unfold compute_config
  rw [pll_search_eq_find, h]
  rfl

/-- Witness for C4 at refclk 125 MHz, linerate 2.5 Gbps. -/
theorem C4_first_match_wins_witness :
    pll_tuples.find? (tuple_ok 125e6 2.5e9) = some (4, 5, 1, 2) ∧
    compute_config 125e6 2.5e9 =
      Except.ok (mk_config 125e6 2.5e9 (4, 5, 1, 2)) :=
  ⟨find_125M_2p5G, C4_first_match_wins 125e6 2.5e9 (4, 5, 1, 2) find_125M_2p5G⟩

/-- C5: `compute_config` returns a configuration iff some tuple of the
search space is accepted; when every tuple is rejected it fails with the
error carrying exactly the requested refclk_freq and linerate. -/
theorem C5_error_carries_inputs (r l : ℚ) :
    ((∃ cfg, compute_config r l = Except.ok cfg) ↔
      ∃ t ∈ pll_tuples, tuple_ok r l t = true) ∧
    ((∀ t ∈ pll_tuples, tuple_ok r l t = false) →
      compute_config r l = Except.error { refclk_freq := r, linerate := l }) := by
  constructor
  · constructor
    · rintro ⟨cfg, hcfg⟩
      obtain ⟨t, hf, -⟩ := (compute_config_ok_iff r l cfg).1 hcfg
      exact ⟨t, List.mem_of_find?_eq_some hf, List.find?_some hf⟩
    · rintro ⟨t, ht, hok⟩
      cases hf : pll_tuples.find? (tuple_ok r l) with
      | none =>
        rw [List.find?_eq_none] at hf
        exact absurd hok (by simp [hf t ht])
      | some u =>
        exact ⟨mk_config r l u, (compute_config_ok_iff r l _).2 ⟨u, hf, rfl⟩⟩
  · intro hall
    unfold compute_config
    rw [pll_search_eq_find,
      List.find?_eq_none.mpr (fun t ht => by simp [hall t ht])]
    rfl

/-- Witness for C5 at refclk 0 Hz, linerate 1 bps: no tuple is accepted
(every VCO frequency is 0, below the band), so the solver fails with the
error carrying those inputs. -/
theorem C5_error_carries_inputs_witness :
    (∀ t ∈ pll_tuples, tuple_ok 0 1 t = false) ∧
    compute_config 0 1 = Except.error { refclk_freq := 0, linerate := 1 } := by
  have hall : ∀ t ∈ pll_tuples, tuple_ok 0 1 t = false := by
    intro t ht
    simp only [tuple_ok, vco_of, decide_eq_false_iff_not]
    rintro ⟨⟨hge, -⟩, -⟩
    rw [zero_mul, zero_div] at hge
    norm_num at hge
  exact ⟨hall, (C5_error_carries_inputs 0 1).2 hall⟩

/-- C6: with the clock aligner disabled, rx_ready is driven by
rx_init.done alone — it agrees across any two signal states that agree on
rx_init.done — and no aligner submodule is instantiated. -/
theorem C6_rx_ready_aligner_disabled (s u : GTPSignals)
    (h : s.rx_init_done = u.rx_init_done) :
    (gtp_comb false s).rx_ready = s.rx_init_done ∧
    (gtp_comb false s).rx_ready = (gtp_comb false u).rx_ready ∧
    gtp_aligner_present false = false := by
  simp [gtp_comb, gtp_aligner_present, h]

/-- Witness for C6 on two signal states differing everywhere except
rx_init.done. -/
theorem C6_rx_ready_aligner_disabled_witness :
    sig_a.rx_init_done = sig_b.rx_init_done ∧
    ((gtp_comb false sig_a).rx_ready = sig_a.rx_init_done ∧
      (gtp_comb false sig_a).rx_ready = (gtp_comb false sig_b).rx_ready ∧
      gtp_aligner_present false = false) :=
  ⟨rfl, C6_rx_ready_aligner_disabled sig_a sig_b rfl⟩

/-- C7: with the clock aligner enabled, the aligner's restart output
drives exactly the RX initializer's restart input, the PLL reset is
driven solely by tx_init.pllreset, and neither the PLL reset nor the TX
initializer's plllock input changes under any change of the aligner
restart level. -/
theorem C7_restart_scoped_to_rx (s : GTPSignals) (b : Bool) :
    (gtp_comb true s).rx_init_restart = s.aligner_restart ∧
    (gtp_comb true s).qpll_reset = s.tx_init_pllreset ∧
    (gtp_comb true { s with aligner_restart := b }).qpll_reset =
      (gtp_comb true s).qpll_reset ∧
    (gtp_comb true { s with aligner_restart := b }).tx_init_plllock =
      (gtp_comb true s).tx_init_plllock := by
  simp [gtp_comb]

/-- C8: `compute_config` is deterministic — equal inputs give equal
results; it is a pure function of its two arguments. -/
theorem C8_deterministic (r₁ l₁ r₂ l₂ : ℚ) (hr : r₁ = r₂) (hl : l₁ = l₂) :
    compute_config r₁ l₁ = compute_config r₂ l₂ := by
  rw [hr, hl]

/-- Witness for C8 at refclk 125 MHz, linerate 2.5 Gbps. -/
theorem C8_deterministic_witness :
    (125e6 : ℚ) = 125e6 ∧ (2.5e9 : ℚ) = 2.5e9 ∧
    compute_config 125e6 2.5e9 = compute_config 125e6 2.5e9 :=
  ⟨rfl, rfl, C8_deterministic 125e6 2.5e9 125e6 2.5e9 rfl rfl⟩

/-- C9: if the qpll configuration's linerate is at least 6.6e9, the
assertion `qpll.config["linerate"] < 6.6e9` fails and GTP construction
fails before instantiating the transceiver channel. -/
theorem C9_linerate_assertion (cfg : LinkConfig) (ca : Bool)
    (h : 6.6e9 ≤ cfg.linerate) :
    gtp_construct cfg ca = none := by
  unfold gtp_construct
  rw [if_neg (not_lt.mpr h)]

/-- Witness for C9 on a configuration whose linerate is exactly 6.6e9
(the assertion is strict, so the boundary itself fails). -/
theorem C9_linerate_assertion_witness :
    (6.6e9 : ℚ) ≤ cfg_too_fast.linerate ∧
    gtp_construct cfg_too_fast true = none :=
  ⟨by norm_num [cfg_too_fast],
    C9_linerate_assertion cfg_too_fast true (by norm_num [cfg_too_fast])⟩

/-- C10: every configuration returned by `compute_config` has d in
{1, 2, 4, 8} — exactly the keys of the rxcdr_cfgs table — so the lookup
`rxcdr_cfgs[qpll.config["d"]]` during GTP construction always succeeds. -/
theorem C10_rxcdr_lookup_total (r l : ℚ) (cfg : LinkConfig)
    (h : compute_config r l = Except.ok cfg) :
    (cfg.d = 1 ∨ cfg.d = 2 ∨ cfg.d = 4 ∨ cfg.d = 8) ∧
    (rxcdr_cfgs cfg.d).isSome = true := by
  obtain ⟨t, hf, hcfg⟩ := (compute_config_ok_iff r l cfg).1 h
  subst hcfg
  have hd := (pll_tuples_components t (List.mem_of_find?_eq_some hf)).2.2.2
  refine ⟨hd, ?_⟩
  rcases hd with h1 | h1 | h1 | h1 <;>
    simp [mk_config, rxcdr_cfgs, h1]

/-- Witness for C10 at refclk 125 MHz, linerate 2.5 Gbps. -/
theorem C10_rxcdr_lookup_total_witness :
    compute_config 125e6 2.5e9 = Except.ok cfg_125M_2p5G ∧
    ((cfg_125M_2p5G.d = 1 ∨ cfg_125M_2p5G.d = 2 ∨ cfg_125M_2p5G.d = 4 ∨
        cfg_125M_2p5G.d = 8) ∧
      (rxcdr_cfgs cfg_125M_2p5G.d).isSome = true) :=
  ⟨compute_config_125M_2p5G,
    C10_rxcdr_lookup_total 125e6 2.5e9 cfg_125M_2p5G compute_config_125M_2p5G⟩

end GTP7
